import Mathlib

/-!
Shallow embedding of the speedupsharepoint-ai-service quote pipeline
(`src/ai_service/models.py`, `src/ai_service/context_builder.py`,
`src/ai_service/quote_generator.py`).

Python strings are embedded as `List Char`; Python floats as exact
rationals `ℚ` (floating-point rounding is abstracted away, recorded per
definition where it matters); the generative-model call is abstracted as
an explicit outcome parameter, since the model is a non-deterministic
black box.
-/

namespace AIQuote

/-- Python strings, embedded as lists of characters. -/
abbrev Str := List Char

/-- Embedding of Python `needle == haystack[:len(needle)]` used by `occursIn`. -/
def leadsWith : Str → Str → Bool
  | [], _ => true
  | _ :: _, [] => false
  | a :: as, b :: bs => a == b && leadsWith as bs

/-- Embedding of the Python substring test `needle in haystack`. -/
def occursIn (needle : Str) : Str → Bool
  | [] => leadsWith needle []
  | c :: rest => leadsWith needle (c :: rest) || occursIn needle rest

/-- Embedding of Python `str.lower()` (ASCII case folding; the category
labels and project-type tokens in this codebase are ASCII). -/
def pyLower (s : Str) : Str := s.map Char.toLower

/-- Floor of a rational as an integer (`Int.fdiv` is floor division and the
denominator of a `Rat` is positive). -/
def ratFloor (q : ℚ) : ℤ := Int.fdiv q.num q.den

/-- Round a rational to the nearest integer, ties to even — the rounding
mode of Python `round`. -/
def roundHalfEvenInt (q : ℚ) : ℤ :=
  let fl := ratFloor q
  let frac := q - (fl : ℚ)
  if frac < 1/2 then fl
  else if 1/2 < frac then fl + 1
  else if fl % 2 = 0 then fl else fl + 1

/-- Embedding of Python `round(x, 2)` on the exact rational value. -/
def pyRound2 (q : ℚ) : ℚ := (roundHalfEvenInt (q * 100) : ℚ) / 100

/-- Embedding of Python `str(i)` for an integer. -/
def intStr (i : ℤ) : Str :=
  (if i < 0 then "-".data else []) ++ Nat.toDigits 10 i.natAbs

/-- Decimal rendering of `n` padded to two digits, for the cents part of a
`.2f` format. -/
def twoDigits (n : ℕ) : Str :=
  if n < 10 then '0' :: Nat.toDigits 10 n else Nat.toDigits 10 n

/-- Embedding of the Python format spec `.2f`: two fractional digits,
rounding abstracted as round-half-even on the exact rational. -/
def fmt2 (q : ℚ) : Str :=
  let sign := if q < 0 then "-".data else []
  let cents := (roundHalfEvenInt (|q| * 100)).toNat
  sign ++ Nat.toDigits 10 (cents / 100) ++ ".".data ++ twoDigits (cents % 100)

/-- Insert a thousands separator every three digits, input reversed. -/
def group3Rev : Str → Str
  | a :: b :: c :: d :: rest => a :: b :: c :: ',' :: group3Rev (d :: rest)
  | l => l

/-- Embedding of the Python format spec `,.2f`: `.2f` with a thousands
separator in the integer part. -/
def fmtComma2 (q : ℚ) : Str :=
  let sign := if q < 0 then "-".data else []
  let cents := (roundHalfEvenInt (|q| * 100)).toNat
  sign ++ (group3Rev (Nat.toDigits 10 (cents / 100)).reverse).reverse
    ++ ".".data ++ twoDigits (cents % 100)

/-- Fractional decimal digits of a rational in `[0, 1)`, up to the given
fuel, stopping at an exact zero remainder. -/
def fracDigits : ℚ → ℕ → Str
  | _, 0 => []
  | q, Nat.succ n =>
    if q = 0 then []
    else
      let q10 := q * 10
      let d := ratFloor q10
      Char.ofNat (48 + d.toNat % 10) :: fracDigits (q10 - (d : ℚ)) n

/-- Embedding of Python `str()` on a float value: integer part, a dot, then
the fractional digits with at least one digit shown. The exact shortest-repr
digit output of CPython floats is abstracted by this exact-decimal rendering;
no claim depends on the digits themselves. -/
def pyFloatStr (q : ℚ) : Str :=
  let sign := if q < 0 then "-".data else []
  let a := |q|
  let ip := ratFloor a
  let ds := fracDigits (a - (ip : ℚ)) 17
  sign ++ Nat.toDigits 10 ip.toNat ++ ".".data ++ (if ds = [] then "0".data else ds)

/-- Embedding of the Python idiom `x or dflt` rendered into an f-string for
an optional float field: both `None` and the falsy `0.0` give the default. -/
def pyOrFloat (x : Option ℚ) (dflt : Str) : Str :=
  match x with
  | some q => if q = 0 then dflt else pyFloatStr q
  | none => dflt

/-- Embedding of the Python idiom `x or dflt` for an optional string field:
both `None` and the falsy empty string give the default. -/
def pyOrStr (x : Option Str) (dflt : Str) : Str :=
  match x with
  | some s => if s = [] then dflt else s
  | none => dflt

/-! ## Data model (`src/ai_service/models.py`) -/

/-- `ProjectType` (models.py lines 7-12): closed string enumeration. -/
inductive ProjectType where
  | garage
  | closet
  | pantry
  | mudroom
  | home_office
deriving DecidableEq

/-- The string value of each `ProjectType` member. -/
def ProjectType.value : ProjectType → Str
  | .garage => "garage".data
  | .closet => "closet".data
  | .pantry => "pantry".data
  | .mudroom => "mudroom".data
  | .home_office => "home_office".data

/-- `QuoteLineItem` (models.py lines 15-22). -/
structure QuoteLineItem where
  sku : Str
  description : Str
  quantity : ℤ
  unit_price : ℚ
  total : ℚ
  category : Str
  reasoning : Option Str
deriving DecidableEq

/-- `QuoteRequest` (models.py lines 25-34). The free-form
`customer_context` map is embedded as an association list. -/
structure QuoteRequest where
  tenant_id : Str
  customer_id : Option Str
  project_type : ProjectType
  customer_notes : Str
  square_footage : Option ℚ
  ceiling_height : Option ℚ
  budget_range : Option Str
  site_photos : Option (List Str)
  customer_context : Option (List (Str × Str))
deriving DecidableEq

/-- `QuoteResponse` (models.py lines 37-52). The `generated_at` timestamp
default (`datetime.utcnow`) is a wall-clock side effect outside the embedded
computation and is omitted; no claim mentions it. -/
structure QuoteResponse where
  quote_id : Str
  tenant_id : Str
  line_items : List QuoteLineItem
  subtotal : ℚ
  tax : ℚ
  total : ℚ
  estimated_margin_percent : ℚ
  reasoning : Str
  upsell_suggestions : List QuoteLineItem
  similar_quotes_used : ℕ
  confidence_score : ℚ
deriving DecidableEq

/-- `HistoricalQuote` (models.py lines 55-66). `created_at` is embedded as
epoch seconds. -/
structure HistoricalQuote where
  quote_id : Str
  tenant_id : Str
  project_type : ProjectType
  customer_notes : Str
  square_footage : Option ℚ
  line_items : List QuoteLineItem
  total_amount : ℚ
  won : Bool
  time_to_close_days : Option ℤ
  sales_rep_notes : Option Str
  created_at : ℤ
deriving DecidableEq

/-- `CatalogItem` (models.py lines 69-78). -/
structure CatalogItem where
  catalog_item_id : Str
  tenant_id : Str
  sku : Str
  name : Str
  description : Str
  base_price : ℚ
  category : Str
  typical_quantity_range : Option Str
  pairs_well_with : Option (List Str)
deriving DecidableEq

/-! ## Context builder (`src/ai_service/context_builder.py`) -/

/-- One `quantity`x`sku` pair of the items summary in
`_format_similar_quotes` (context_builder.py lines 181-184). -/
def formatItemPair (item : QuoteLineItem) : Str :=
  intStr item.quantity ++ "x ".data ++ item.sku

/-- One block of `_format_similar_quotes` (context_builder.py lines
186-193), for the quote at 1-based position `i`. -/
def formatQuoteBlock (i : ℕ) (quote : HistoricalQuote) : Str :=
  "\nQuote ".data ++ Nat.toDigits 10 i
    ++ ":\n  - Project: ".data ++ quote.project_type.value
    ++ " (".data ++ pyOrFloat quote.square_footage "N/A".data
    ++ " sqft)\n  - Customer: \"".data ++ quote.customer_notes.take 100
    ++ "...\"\n  - Items: ".data
    ++ List.intercalate ", ".data ((quote.line_items.take 5).map formatItemPair)
    ++ "\n  - Total: $".data ++ fmtComma2 quote.total_amount
    ++ "\n  - Result: ".data ++ (if quote.won then "WON".data else "LOST".data)
    ++ "\n".data

/-- The `enumerate(quotes[:10], 1)` loop body of `_format_similar_quotes`. -/
def formatQuoteBlocks : ℕ → List HistoricalQuote → List Str
  | _, [] => []
  | i, quote :: rest => formatQuoteBlock i quote :: formatQuoteBlocks (i + 1) rest

/-- `_format_similar_quotes` (context_builder.py lines 175-195). -/
def format_similar_quotes (quotes : List HistoricalQuote) : Str :=
  if quotes = [] then "No similar quotes found.".data
  else List.intercalate "\n".data (formatQuoteBlocks 1 (quotes.take 10))

/-- One block of `_format_catalog` (context_builder.py lines 203-209). -/
def formatCatalogBlock (item : CatalogItem) : Str :=
  "\n- SKU: ".data ++ item.sku
    ++ "\n  Name: ".data ++ item.name
    ++ "\n  Description: ".data ++ item.description
    ++ "\n  Price: $".data ++ fmt2 item.base_price
    ++ "\n  Typical Qty: ".data ++ pyOrStr item.typical_quantity_range "Varies".data
    ++ "\n".data

/-- `_format_catalog` (context_builder.py lines 197-211). -/
def format_catalog (catalog : List CatalogItem) : Str :=
  if catalog = [] then "No catalog items available.".data
  else List.intercalate "\n".data (catalog.map formatCatalogBlock)

/-- The fixed `# TASK` tail of the suggest-quote prompt
(context_builder.py lines 39-66). -/
def SUGGEST_TASK_BLOCK : Str :=
  ("\n\n# TASK\nGenerate a detailed quote suggestion using ONLY valid JSON:\n\n"
    ++ "\x7b\n  \"line_items\": [\n    \x7b\n      \"sku\": \"EXACT_SKU_FROM_CATALOG\",\n"
    ++ "      \"description\": \"User-friendly description\",\n      \"quantity\": 5,\n"
    ++ "      \"unit_price\": 299.99,\n      \"total\": 1499.95,\n"
    ++ "      \"category\": \"base\",\n      \"reasoning\": \"Why this item and quantity\"\n"
    ++ "    \x7d\n  ],\n  \"reasoning\": \"Overall quote strategy\",\n"
    ++ "  \"upsell_suggestions\": [],\n  \"confidence_score\": 0.85\n\x7d\n\n"
    ++ "RULES:\n1. Use only SKUs from the catalog.\n"
    ++ "2. Base quantities on square footage and project type.\n"
    ++ "3. Reference patterns from similar quotes.\n"
    ++ "4. Include reasoning for each line item.\n"
    ++ "5. Suggest 2–3 upsells.\n6. Return ONLY valid JSON.\n").data

/-- `build_suggest_quote_prompt` (context_builder.py lines 11-67). -/
def build_suggest_quote_prompt (request : QuoteRequest)
    (similar_quotes : List HistoricalQuote) (catalog : List CatalogItem) : Str :=
  let relevant_catalog := catalog.filter fun item =>
    occursIn request.project_type.value (pyLower item.category)
  "You are an expert estimator for ".data ++ request.tenant_id
    ++ ".\n\n# CUSTOMER REQUEST\nProject Type: ".data ++ request.project_type.value
    ++ "\nCustomer Notes: ".data ++ request.customer_notes
    ++ "\nSquare Footage: ".data ++ pyOrFloat request.square_footage "Not specified".data
    ++ "\nCeiling Height: ".data ++ pyOrFloat request.ceiling_height "Not specified".data
    ++ "\nBudget Range: ".data ++ pyOrStr request.budget_range "Not specified".data
    ++ "\n\n# SIMILAR PAST QUOTES\n".data ++ format_similar_quotes similar_quotes
    ++ "\n\n# AVAILABLE CATALOG ITEMS\n".data ++ format_catalog relevant_catalog
    ++ SUGGEST_TASK_BLOCK

/-- The fixed `# TASK` tail of the upsell prompt (context_builder.py lines
93-113). -/
def UPSELL_TASK_BLOCK : Str :=
  ("\n\n# TASK\nSuggest 2–5 upsell items that would meaningfully improve the project outcome.\n\n"
    ++ "Return ONLY valid JSON:\n\n"
    ++ "\x7b\n  \"upsell_items\": [\n    \x7b\n      \"sku\": \"EXACT_SKU_FROM_CATALOG\",\n"
    ++ "      \"description\": \"Short description\",\n      \"quantity\": 1,\n"
    ++ "      \"unit_price\": 199.99,\n      \"total\": 199.99,\n"
    ++ "      \"category\": \"upsell\",\n      \"reasoning\": \"Why this is a valuable upgrade\"\n"
    ++ "    \x7d\n  ],\n  \"reasoning\": \"Overall upsell strategy\",\n"
    ++ "  \"confidence_score\": 0.85\n\x7d\n").data

/-- `build_upsell_prompt` (context_builder.py lines 72-114). -/
def build_upsell_prompt (request : QuoteRequest) (catalog : List CatalogItem) : Str :=
  let relevant_catalog := catalog.filter fun item =>
    occursIn request.project_type.value (pyLower item.category)
  "You are an expert sales engineer for ".data ++ request.tenant_id
    ++ ".\n\n# CUSTOMER REQUEST\nProject Type: ".data ++ request.project_type.value
    ++ "\nCustomer Notes: ".data ++ request.customer_notes
    ++ "\n\n# AVAILABLE CATALOG ITEMS\n".data ++ format_catalog relevant_catalog
    ++ UPSELL_TASK_BLOCK

/-! ## Quote generator (`src/ai_service/quote_generator.py`)

The OpenAI chat call (lines 52-61) is a non-deterministic external
collaborator; it is abstracted as a `ModelOutcome` parameter: either the
transport raised, or it returned content that does or does not parse as
JSON. Parsed JSON is embedded as the typed `RawQuoteData` shape, with
`Option` marking fields that may be absent from the model output —
pydantic type-mismatch failures are abstracted into absence, since both
raise the same `ValidationError`. -/

/-- The exception kinds that can escape `suggest_quote` (quote_generator.py
lines 51-104). There is no distinct unknown-SKU failure kind anywhere in
the module. -/
inductive QuoteError where
  /-- The OpenAI client call raised; re-raised by the bare `raise` at line 104. -/
  | modelTransportError
  /-- `json.loads` raised `JSONDecodeError`; re-raised as
  `ValueError("AI returned invalid JSON")` at lines 98-100. -/
  | invalidJSON
  /-- `quote_data["line_items"]` raised `KeyError` (line 69). -/
  | missingLineItemsKey
  /-- `QuoteLineItem(**item)` raised a pydantic `ValidationError`
  (line 69 or lines 87-90). -/
  | validationError
deriving DecidableEq

/-- A raw line-item object from the model JSON: each pydantic-required
field of `QuoteLineItem` is `Option`al here, `none` meaning absent (or of
an uncoercible type). -/
structure RawLineItem where
  sku : Option Str
  description : Option Str
  quantity : Option ℤ
  unit_price : Option ℚ
  total : Option ℚ
  category : Option Str
  reasoning : Option Str
deriving DecidableEq

/-- The top-level JSON object returned by the model for `suggest_quote`:
`line_items` is read with `[]`-indexing (KeyError if absent), the other
three with `.get` defaults. -/
structure RawQuoteData where
  line_items : Option (List RawLineItem)
  reasoning : Option Str
  upsell_suggestions : Option (List RawLineItem)
  confidence_score : Option ℚ
deriving DecidableEq

/-- Outcome of one OpenAI chat call: transport failure, or a response with
`created` timestamp whose content parses to `some` JSON object or fails to
parse (`none`). -/
inductive ModelOutcome where
  | transportError
  | success (parsed : Option RawQuoteData) (created : ℤ)
deriving DecidableEq

/-- Embedding of `QuoteLineItem(**item)` (quote_generator.py line 69 and
lines 87-90): pydantic accepts the dict iff every required field is
present, and never looks at the catalog. -/
def buildQuoteLineItem (item : RawLineItem) : Except QuoteError QuoteLineItem :=
  match item.sku, item.description, item.quantity, item.unit_price,
      item.total, item.category with
  | some sku, some description, some quantity, some unit_price, some total,
      some category =>
    .ok { sku := sku, description := description, quantity := quantity,
          unit_price := unit_price, total := total, category := category,
          reasoning := item.reasoning }
  | _, _, _, _, _, _ => .error .validationError

/-- The list comprehensions `[QuoteLineItem(**item) for item in ...]`
(quote_generator.py line 69 and lines 87-90): items are built in order and
the first pydantic failure aborts the whole comprehension. -/
def buildLineItems : List RawLineItem → Except QuoteError (List QuoteLineItem)
  | [] => .ok []
  | item :: rest =>
    match buildQuoteLineItem item with
    | .error e => .error e
    | .ok li =>
      match buildLineItems rest with
      | .error e => .error e
      | .ok lis => .ok (li :: lis)

/-- The estimated cost of quote_generator.py line 75:
`sum(item.total * 0.6 for item in line_items)`. -/
def estimated_cost (line_items : List QuoteLineItem) : ℚ :=
  (line_items.map fun item => item.total * (6/10)).sum

/-- The margin of quote_generator.py lines 70 and 74-76, as a function of
the accepted line items: `((subtotal - cost) / subtotal * 100) if
subtotal > 0 else 0`. -/
def margin_percent_of (line_items : List QuoteLineItem) : ℚ :=
  let subtotal := (line_items.map QuoteLineItem.total).sum
  if subtotal > 0 then (subtotal - estimated_cost line_items) / subtotal * 100
  else 0

/-- One attempt of the `suggest_quote` body (quote_generator.py lines
39-104), with the model call abstracted as `outcome`. The upsell
comprehension (lines 87-90) runs while the `QuoteResponse` constructor
arguments are evaluated, after the arithmetic of lines 70-76. -/
def suggest_quote_once (request : QuoteRequest)
    (similar_quotes : List HistoricalQuote) (catalog : List CatalogItem)
    (outcome : ModelOutcome) : Except QuoteError QuoteResponse :=
  let _prompt := build_suggest_quote_prompt request similar_quotes catalog
  match outcome with
  | .transportError => .error .modelTransportError
  | .success none _ => .error .invalidJSON
  | .success (some quote_data) created =>
    match quote_data.line_items with
    | none => .error .missingLineItemsKey
    | some raw_line_items =>
      match buildLineItems raw_line_items with
      | .error e => .error e
      | .ok line_items =>
        let subtotal := (line_items.map QuoteLineItem.total).sum
        let tax := subtotal * (825/10000)
        let total := subtotal + tax
        let margin_percent := margin_percent_of line_items
        match buildLineItems (quote_data.upsell_suggestions.getD []) with
        | .error e => .error e
        | .ok upsell_items =>
          .ok {
            quote_id := "quote_".data ++ request.tenant_id ++ "_".data
              ++ intStr created,
            tenant_id := request.tenant_id,
            line_items := line_items,
            subtotal := subtotal,
            tax := tax,
            total := total,
            estimated_margin_percent := pyRound2 margin_percent,
            reasoning := quote_data.reasoning.getD [],
            upsell_suggestions := upsell_items,
            similar_quotes_used := similar_quotes.length,
            confidence_score := quote_data.confidence_score.getD (7/10) }

/-- Modelled from the tenacity library used at quote_generator.py line 32:
`wait_exponential(multiplier, min, max)` waits
`max(max(0, min), min(multiplier * 2 ** attempt_number, max))` seconds
after the failed attempt numbered `attempt_number` (1-based). -/
def wait_exponential (multiplier mn mx : ℚ) (attempt_number : ℕ) : ℚ :=
  max (max 0 mn) (min (multiplier * 2 ^ attempt_number) mx)

/-- Modelled from the tenacity library used at quote_generator.py line 32:
run attempts numbered from `attempt` while `remaining` attempts are allowed
(`stop_after_attempt` semantics), retrying on any raised exception, and
record the backoff wait chosen after each failed non-final attempt. -/
def retryTrace {α : Type} (f : ℕ → Except QuoteError α) :
    ℕ → ℕ → List ℚ × Except QuoteError α
  | attempt, 0 => ([], f attempt)
  | attempt, 1 => ([], f attempt)
  | attempt, Nat.succ (Nat.succ n) =>
    match f attempt with
    | .ok a => ([], .ok a)
    | .error _ =>
      let rest := retryTrace f (attempt + 1) (Nat.succ n)
      (wait_exponential 1 2 10 attempt :: rest.1, rest.2)

/-- `suggest_quote` with its decorator (quote_generator.py lines 32-104):
`@retry(stop=stop_after_attempt(3), wait=wait_exponential(multiplier=1,
min=2, max=10))` wrapped around the whole body. `model` gives the outcome
of the OpenAI call on each attempt; the result pairs the backoff waits
performed with the final outcome. -/
def suggest_quote (request : QuoteRequest)
    (similar_quotes : List HistoricalQuote) (catalog : List CatalogItem)
    (model : ℕ → ModelOutcome) : List ℚ × Except QuoteError QuoteResponse :=
  retryTrace
    (fun attempt => suggest_quote_once request similar_quotes catalog (model attempt))
    1 3

/-! ## Inbound request validation (`QuoteRequest(**req_body)`)

`src/function_app.py` line 207 validates the inbound JSON body by
constructing the pydantic `QuoteRequest` (models.py lines 25-34). As with
line items, a raw field is `Option`al, `none` meaning absent or of an
uncoercible type. -/

/-- The inbound JSON body for a quote request, before pydantic validation. -/
structure RawQuoteRequest where
  tenant_id : Option Str
  customer_id : Option Str
  project_type : Option Str
  customer_notes : Option Str
  square_footage : Option ℚ
  ceiling_height : Option ℚ
  budget_range : Option Str
  site_photos : Option (List Str)
  customer_context : Option (List (Str × Str))
deriving DecidableEq

/-- Coercion of a string into the `ProjectType` enum, as pydantic does for
the `ProjectType(str, Enum)` field: the value must be one of the five
member values. -/
def parseProjectType (s : Str) : Option ProjectType :=
  if s = "garage".data then some .garage
  else if s = "closet".data then some .closet
  else if s = "pantry".data then some .pantry
  else if s = "mudroom".data then some .mudroom
  else if s = "home_office".data then some .home_office
  else none

/-- Embedding of `QuoteRequest(**req_body)`: pydantic requires `tenant_id`,
`project_type` (coercible to the enum) and `customer_notes`; every other
field is optional and carried through verbatim — models.py declares
`square_footage` and `ceiling_height` as plain `Optional[float]` with no
range constraint. -/
def validate_quote_request (raw : RawQuoteRequest) :
    Except QuoteError QuoteRequest :=
  match raw.tenant_id, raw.project_type, raw.customer_notes with
  | some tenant_id, some pt, some customer_notes =>
    match parseProjectType pt with
    | some project_type =>
      .ok { tenant_id := tenant_id, customer_id := raw.customer_id,
            project_type := project_type, customer_notes := customer_notes,
            square_footage := raw.square_footage,
            ceiling_height := raw.ceiling_height,
            budget_range := raw.budget_range,
            site_photos := raw.site_photos,
            customer_context := raw.customer_context }
    | none => .error .validationError
  | _, _, _ => .error .validationError

/-! ## Shared helper lemmas -/

/-- Anatomy of a successful `suggest_quote_once` run: the model call
succeeded, its JSON carried a `line_items` key, both comprehensions
succeeded, and the response is the assembled record. -/
theorem suggest_quote_once_ok {request : QuoteRequest}
    {similar_quotes : List HistoricalQuote} {catalog : List CatalogItem}
    {outcome : ModelOutcome} {r : QuoteResponse}
    (h : suggest_quote_once request similar_quotes catalog outcome = .ok r) :
    ∃ quote_data created raw_line_items line_items upsell_items,
      outcome = ModelOutcome.success (some quote_data) created
      ∧ quote_data.line_items = some raw_line_items
      ∧ buildLineItems raw_line_items = .ok line_items
      ∧ buildLineItems (quote_data.upsell_suggestions.getD []) = .ok upsell_items
      ∧ r = { quote_id := "quote_".data ++ request.tenant_id ++ "_".data ++ intStr created,
              tenant_id := request.tenant_id,
              line_items := line_items,
              subtotal := (line_items.map QuoteLineItem.total).sum,
              tax := (line_items.map QuoteLineItem.total).sum * (825/10000),
              total := (line_items.map QuoteLineItem.total).sum
                + (line_items.map QuoteLineItem.total).sum * (825/10000),
              estimated_margin_percent := pyRound2 (margin_percent_of line_items),
              reasoning := quote_data.reasoning.getD [],
              upsell_suggestions := upsell_items,
              similar_quotes_used := similar_quotes.length,
              confidence_score := quote_data.confidence_score.getD (7/10) } := by
  simp only [suggest_quote_once] at h
  split at h
  · exact absurd h (by simp)
  · exact absurd h (by simp)
  · next quote_data created =>
    split at h
    · exact absurd h (by simp)
    · next raw heq_li =>
      split at h
      · exact absurd h (by simp)
      · next line_items heq_bl =>
        split at h
        · exact absurd h (by simp)
        · next upsell_items heq_up =>
          simp only [Except.ok.injEq] at h
          exact ⟨quote_data, created, raw, line_items, upsell_items, rfl,
            heq_li, heq_bl, heq_up, h.symm⟩

/-- The estimated cost is six tenths of the subtotal, whatever the items. -/
theorem estimated_cost_eq (l : List QuoteLineItem) :
    estimated_cost l = (6/10) * (l.map QuoteLineItem.total).sum := by
  induction l with
  | nil => simp [estimated_cost]
  | cons a t ih =>
    simp only [estimated_cost, List.map_cons, List.sum_cons] at ih ⊢
    rw [ih]; ring

/-- The margin formula collapses to a constant: 40 on a positive subtotal,
0 otherwise. -/
theorem margin_percent_of_eq (l : List QuoteLineItem) :
    margin_percent_of l = if 0 < (l.map QuoteLineItem.total).sum then 40 else 0 := by
  unfold margin_percent_of
  rw [estimated_cost_eq]
  by_cases h : 0 < (l.map QuoteLineItem.total).sum
  · rw [if_pos h, if_pos h]
    have hne : (l.map QuoteLineItem.total).sum ≠ 0 := ne_of_gt h
    field_simp
    ring
  · rw [if_neg h, if_neg h]

theorem pyRound2_forty : pyRound2 40 = 40 := by
  norm_num [pyRound2, roundHalfEvenInt, ratFloor, Int.fdiv]

theorem pyRound2_zero : pyRound2 0 = 0 := by
  norm_num [pyRound2, roundHalfEvenInt, ratFloor, Int.fdiv]

/-- `QuoteLineItem(**item)` raises on an absent required `total` field. -/
theorem buildQuoteLineItem_total_none {item : RawLineItem}
    (h : item.total = none) :
    buildQuoteLineItem item = .error .validationError := by
  obtain ⟨s, d, q, u, t, c, rs⟩ := item
  cases h
  unfold buildQuoteLineItem
  cases s <;> cases d <;> cases q <;> cases u <;> cases c <;> rfl

/-- The only exception `QuoteLineItem(**item)` raises is the pydantic
`ValidationError`. -/
theorem buildQuoteLineItem_error_kind {item : RawLineItem} {e : QuoteError}
    (h : buildQuoteLineItem item = .error e) : e = .validationError := by
  obtain ⟨s, d, q, u, t, c, rs⟩ := item
  unfold buildQuoteLineItem at h
  cases s <;> cases d <;> cases q <;> cases u <;> cases t <;> cases c <;>
    simp_all

/-- If any raw item misses its required `total` field, the whole
comprehension raises `ValidationError`. -/
theorem buildLineItems_error {l : List RawLineItem}
    (h : ∃ x ∈ l, x.total = none) :
    buildLineItems l = .error .validationError := by
  induction l with
  | nil => simp at h
  | cons a t ih =>
    obtain ⟨x, hx, hxt⟩ := h
    rcases List.mem_cons.mp hx with rfl | hmem
    · unfold buildLineItems
      rw [buildQuoteLineItem_total_none hxt]
    · unfold buildLineItems
      cases hba : buildQuoteLineItem a with
      | error e => rw [buildQuoteLineItem_error_kind hba]
      | ok li => rw [ih ⟨x, hmem, hxt⟩]

/-- Unrolling of the three-attempt retry loop of `suggest_quote`. -/
theorem suggest_quote_eq (request : QuoteRequest)
    (similar_quotes : List HistoricalQuote) (catalog : List CatalogItem)
    (m : ℕ → ModelOutcome) :
    suggest_quote request similar_quotes catalog m =
      match suggest_quote_once request similar_quotes catalog (m 1) with
      | .ok r => ([], .ok r)
      | .error _ =>
        match suggest_quote_once request similar_quotes catalog (m 2) with
        | .ok r => ([wait_exponential 1 2 10 1], .ok r)
        | .error _ =>
          ([wait_exponential 1 2 10 1, wait_exponential 1 2 10 2],
            suggest_quote_once request similar_quotes catalog (m 3)) := by
  unfold suggest_quote
  show retryTrace _ 1 (Nat.succ (Nat.succ 1)) = _
  unfold retryTrace
  cases h1 : suggest_quote_once request similar_quotes catalog (m 1) with
  | error e1 =>
    unfold retryTrace
    cases h2 : suggest_quote_once request similar_quotes catalog (m 2) with
    | error e2 => rfl
    | ok r => rfl
  | ok r => rfl

/-! ## Shared concrete inputs for witnesses and counterexamples -/

/-- A raw line item with every pydantic-required field present. -/
def mkRawItem (sku : Str) (q : ℤ) (price tot : ℚ) : RawLineItem :=
  { sku := some sku, description := some "item".data, quantity := some q,
    unit_price := some price, total := some tot, category := some "base".data,
    reasoning := none }

/-- A concrete catalog item. -/
def mkCatalogItem (sku category : Str) (price : ℚ) : CatalogItem :=
  { catalog_item_id := "cat-1".data, tenant_id := "acme".data, sku := sku,
    name := "Item".data, description := "An item".data, base_price := price,
    category := category, typical_quantity_range := none, pairs_well_with := none }

/-- A concrete validated request. -/
def mkRequest (pt : ProjectType) : QuoteRequest :=
  { tenant_id := "acme".data, customer_id := none, project_type := pt,
    customer_notes := "8x8 closet".data, square_footage := some 64,
    ceiling_height := none, budget_range := none, site_photos := none,
    customer_context := none }

/-- The request section of the suggest-quote prompt, up to and including
the `# SIMILAR PAST QUOTES` heading. -/
def promptHeader (request : QuoteRequest) : Str :=
  "You are an expert estimator for ".data ++ request.tenant_id
    ++ ".\n\n# CUSTOMER REQUEST\nProject Type: ".data ++ request.project_type.value
    ++ "\nCustomer Notes: ".data ++ request.customer_notes
    ++ "\nSquare Footage: ".data ++ pyOrFloat request.square_footage "Not specified".data
    ++ "\nCeiling Height: ".data ++ pyOrFloat request.ceiling_height "Not specified".data
    ++ "\nBudget Range: ".data ++ pyOrStr request.budget_range "Not specified".data
    ++ "\n\n# SIMILAR PAST QUOTES\n".data

/-- The `# AVAILABLE CATALOG ITEMS` heading between the similar-quotes and
catalog sections. -/
def promptCatalogHeader : Str := "\n\n# AVAILABLE CATALOG ITEMS\n".data

/-- The request section of the upsell prompt, up to and including the
`# AVAILABLE CATALOG ITEMS` heading. -/
def upsellHeader (request : QuoteRequest) : Str :=
  "You are an expert sales engineer for ".data ++ request.tenant_id
    ++ ".\n\n# CUSTOMER REQUEST\nProject Type: ".data ++ request.project_type.value
    ++ "\nCustomer Notes: ".data ++ request.customer_notes
    ++ promptCatalogHeader

/-- The catalog filter in the words of the spec (§4.1): the category label
contains the project-type token as a case-insensitive substring. Stated
independently of the code filter, for refinement comparison. -/
def ciContains (token label : Str) : Bool :=
  occursIn (pyLower token) (pyLower label)

/-- Each `ProjectType` token is already lowercase. -/
theorem pyLower_value (pt : ProjectType) : pyLower pt.value = pt.value := by
  cases pt <;> decide

/-- The code filter coincides with the spec's case-insensitive-substring
characterisation. -/
theorem filter_eq_ci (request : QuoteRequest) (catalog : List CatalogItem) :
    catalog.filter (fun item => occursIn request.project_type.value (pyLower item.category))
      = catalog.filter (fun item => ciContains request.project_type.value item.category) := by
  congr 1
  funext item
  simp [ciContains, pyLower_value]

/-- C7: for every request and catalog, the catalog section rendered by
`build_suggest_quote_prompt` (and `build_upsell_prompt`) contains exactly
the catalog items whose category label contains the request's project-type
token as a case-insensitive substring; e.g. a category
"closet-accessories" matches project type "closet". -/
theorem catalog_section_is_ci_filtered :
    (∀ (request : QuoteRequest) (catalog : List CatalogItem),
      catalog.filter (fun item => occursIn request.project_type.value (pyLower item.category))
        = catalog.filter (fun item => ciContains request.project_type.value item.category))
    ∧ (∀ (request : QuoteRequest) (similar_quotes : List HistoricalQuote)
        (catalog : List CatalogItem),
        build_suggest_quote_prompt request similar_quotes catalog
          = promptHeader request ++ format_similar_quotes similar_quotes
            ++ promptCatalogHeader
            ++ format_catalog (catalog.filter
                (fun item => ciContains request.project_type.value item.category))
            ++ SUGGEST_TASK_BLOCK)
    ∧ (∀ (request : QuoteRequest) (catalog : List CatalogItem),
        build_upsell_prompt request catalog
          = upsellHeader request
            ++ format_catalog (catalog.filter
                (fun item => ciContains request.project_type.value item.category))
            ++ UPSELL_TASK_BLOCK)
    ∧ ciContains ProjectType.closet.value "closet-accessories".data = true := by
  refine ⟨filter_eq_ci, ?_, ?_, by decide⟩
  · intro request similar_quotes catalog
    simp only [build_suggest_quote_prompt, filter_eq_ci request catalog,
      promptHeader, promptCatalogHeader]
  · intro request catalog
    simp only [build_upsell_prompt, filter_eq_ci request catalog,
      upsellHeader, promptCatalogHeader]

/-- C9: with an empty similar-quotes list the rendered suggest-quote
prompt carries the "No similar quotes found." sentinel, and with an empty
filtered catalog it carries the "No catalog items available." sentinel;
rendering is a total function and succeeds in both cases. -/
theorem prompt_empty_sentinels :
    (∀ (request : QuoteRequest) (catalog : List CatalogItem),
      build_suggest_quote_prompt request [] catalog
        = promptHeader request ++ "No similar quotes found.".data
          ++ promptCatalogHeader
          ++ format_catalog (catalog.filter
              (fun item => occursIn request.project_type.value (pyLower item.category)))
          ++ SUGGEST_TASK_BLOCK)
    ∧ (∀ (request : QuoteRequest) (similar_quotes : List HistoricalQuote)
        (catalog : List CatalogItem),
        catalog.filter (fun item => occursIn request.project_type.value (pyLower item.category))
            = [] →
        build_suggest_quote_prompt request similar_quotes catalog
          = promptHeader request ++ format_similar_quotes similar_quotes
            ++ promptCatalogHeader ++ "No catalog items available.".data
            ++ SUGGEST_TASK_BLOCK) := by
  have hs : format_similar_quotes [] = "No similar quotes found.".data := rfl
  have hc : format_catalog [] = "No catalog items available.".data := rfl
  constructor
  · intro request catalog
    simp only [build_suggest_quote_prompt, hs, promptHeader, promptCatalogHeader]
  · intro request similar_quotes catalog hempty
    simp only [build_suggest_quote_prompt, hempty, hc, promptHeader,
      promptCatalogHeader]

/-- Witness for C9 at a concrete garage request with an empty catalog and
no similar quotes: both sentinels appear in the rendered prompt. -/
theorem prompt_empty_sentinels_witness :
    build_suggest_quote_prompt (mkRequest .garage) [] []
      = promptHeader (mkRequest .garage) ++ "No similar quotes found.".data
        ++ promptCatalogHeader ++ format_catalog [] ++ SUGGEST_TASK_BLOCK
    ∧ build_suggest_quote_prompt (mkRequest .garage) [] []
      = promptHeader (mkRequest .garage) ++ format_similar_quotes []
        ++ promptCatalogHeader ++ "No catalog items available.".data
        ++ SUGGEST_TASK_BLOCK := by
  constructor
  · have h := prompt_empty_sentinels.1 (mkRequest .garage) []
    rw [List.filter_nil] at h
    exact h
  · exact prompt_empty_sentinels.2 (mkRequest .garage) [] [] rfl

/-- A response coming out of the retry wrapper came out of one of the three
attempts. -/
theorem suggest_quote_ok_attempt {request : QuoteRequest}
    {similar_quotes : List HistoricalQuote} {catalog : List CatalogItem}
    {model : ℕ → ModelOutcome} {r : QuoteResponse}
    (h : (suggest_quote request similar_quotes catalog model).2 = .ok r) :
    ∃ attempt, suggest_quote_once request similar_quotes catalog (model attempt)
      = .ok r := by
  rw [suggest_quote_eq] at h
  split at h
  · next r1 heq => exact ⟨1, by simp at h; rw [h] at heq; exact heq⟩
  · next e heq =>
    split at h
    · next r2 heq2 => exact ⟨2, by simp at h; rw [h] at heq2; exact heq2⟩
    · next e2 heq2 => exact ⟨3, by simpa using h⟩

/-- C2: for every `QuoteResponse` returned by `suggest_quote`, `subtotal`
is the sum of the `total` fields of the accepted line items (upsell
suggestions excluded), and `total = subtotal + tax`. -/
theorem c2_subtotal_and_total_consistent :
    ∀ (request : QuoteRequest) (similar_quotes : List HistoricalQuote)
      (catalog : List CatalogItem) (model : ℕ → ModelOutcome) (r : QuoteResponse),
      (suggest_quote request similar_quotes catalog model).2 = .ok r →
      r.subtotal = (r.line_items.map QuoteLineItem.total).sum
      ∧ r.total = r.subtotal + r.tax := by
  intro request sq cat model r h
  obtain ⟨attempt, honce⟩ := suggest_quote_ok_attempt h
  obtain ⟨qd, created, raw, li, up, -, -, -, -, hr⟩ := suggest_quote_once_ok honce
  subst hr
  exact ⟨rfl, rfl⟩

/-- C10: the estimated margin percent of every returned response is the
constant 40 whenever the subtotal is positive and 0 otherwise, whatever
line items the model proposed — the assumed cost is 0.6 of the very totals
that form the subtotal. -/
theorem c10_margin_constant :
    ∀ (request : QuoteRequest) (similar_quotes : List HistoricalQuote)
      (catalog : List CatalogItem) (model : ℕ → ModelOutcome) (r : QuoteResponse),
      (suggest_quote request similar_quotes catalog model).2 = .ok r →
      r.estimated_margin_percent = if 0 < r.subtotal then 40 else 0 := by
  intro request sq cat model r h
  obtain ⟨attempt, honce⟩ := suggest_quote_ok_attempt h
  obtain ⟨qd, created, raw, li, up, -, -, -, -, hr⟩ := suggest_quote_once_ok honce
  subst hr
  dsimp only
  by_cases hpos : 0 < (li.map QuoteLineItem.total).sum
  · rw [margin_percent_of_eq, if_pos hpos, pyRound2_forty]
  · rw [margin_percent_of_eq, if_neg hpos, pyRound2_zero]

/-- C8: the margin computation uses estimated cost 0.6 of each line total
summed, guarded against a zero subtotal; line items totalling 1000.00 give
estimated cost 600.00 and margin exactly 40.00. -/
theorem c8_margin_formula_and_guard :
    (∀ line_items : List QuoteLineItem,
      (line_items.map QuoteLineItem.total).sum = 1000 →
      estimated_cost line_items = 600 ∧ margin_percent_of line_items = 40)
    ∧ (∀ line_items : List QuoteLineItem,
      (line_items.map QuoteLineItem.total).sum = 0 →
      margin_percent_of line_items = 0) := by
  constructor
  · intro line_items hsum
    have hcost : estimated_cost line_items = 600 := by
      rw [estimated_cost_eq, hsum]; norm_num
    refine ⟨hcost, ?_⟩
    rw [margin_percent_of_eq, hsum]
    norm_num
  · intro line_items hsum
    rw [margin_percent_of_eq, hsum]
    norm_num

/-- Model output for the C2 witness run. -/
def c2qd : RawQuoteData :=
  { line_items := some [mkRawItem "SHELF-8FT".data 2 150 300], reasoning := none,
    upsell_suggestions := none, confidence_score := none }

/-- The model behaviour for the C2 witness: every attempt succeeds. -/
def c2model : ℕ → ModelOutcome := fun _ => .success (some c2qd) 7

/-- The response the C2 witness run produces. -/
def c2resp : QuoteResponse :=
  { quote_id := "quote_".data ++ "acme".data ++ "_".data ++ intStr 7,
    tenant_id := "acme".data,
    line_items := [{ sku := "SHELF-8FT".data, description := "item".data,
                     quantity := 2, unit_price := 150, total := 300,
                     category := "base".data, reasoning := none }],
    subtotal := 300, tax := 300 * (825/10000), total := 300 + 300 * (825/10000),
    estimated_margin_percent := 40, reasoning := [], upsell_suggestions := [],
    similar_quotes_used := 0, confidence_score := 7/10 }

/-- Witness for C2: a concrete successful run satisfies both equations. -/
theorem c2_subtotal_and_total_consistent_witness :
    c2resp.subtotal = (c2resp.line_items.map QuoteLineItem.total).sum
    ∧ c2resp.total = c2resp.subtotal + c2resp.tax := by
  have honce : suggest_quote_once (mkRequest .closet) []
      [mkCatalogItem "SHELF-8FT".data "closet-shelving".data 150]
      (.success (some c2qd) 7) = .ok c2resp := by
    simp [suggest_quote_once, buildLineItems, buildQuoteLineItem, c2qd, mkRawItem,
      mkRequest, c2resp, margin_percent_of, estimated_cost]
    norm_num [pyRound2, roundHalfEvenInt, ratFloor, Int.fdiv]
  have hrun : (suggest_quote (mkRequest .closet) []
      [mkCatalogItem "SHELF-8FT".data "closet-shelving".data 150] c2model).2
      = .ok c2resp := by
    rw [suggest_quote_eq]
    simp only [c2model, honce]
  exact c2_subtotal_and_total_consistent _ _ _ _ _ hrun

/-- Model output for the C10 witness run: two items with distinct totals. -/
def c10qd : RawQuoteData :=
  { line_items := some [mkRawItem "SHELF-8FT".data 1 100 100,
      mkRawItem "ROD-4FT".data 2 100 200],
    reasoning := none, upsell_suggestions := none, confidence_score := none }

/-- The model behaviour for the C10 witness: every attempt succeeds. -/
def c10model : ℕ → ModelOutcome := fun _ => .success (some c10qd) 9

/-- The response the C10 witness run produces. -/
def c10resp : QuoteResponse :=
  { quote_id := "quote_".data ++ "acme".data ++ "_".data ++ intStr 9,
    tenant_id := "acme".data,
    line_items := [{ sku := "SHELF-8FT".data, description := "item".data,
                     quantity := 1, unit_price := 100, total := 100,
                     category := "base".data, reasoning := none },
                   { sku := "ROD-4FT".data, description := "item".data,
                     quantity := 2, unit_price := 100, total := 200,
                     category := "base".data, reasoning := none }],
    subtotal := 300, tax := 300 * (825/10000), total := 300 + 300 * (825/10000),
    estimated_margin_percent := 40, reasoning := [], upsell_suggestions := [],
    similar_quotes_used := 0, confidence_score := 7/10 }

/-- Witness for C10: the concrete run with positive subtotal yields margin
40 through the constant-margin theorem. -/
theorem c10_margin_constant_witness :
    c10resp.estimated_margin_percent = if 0 < c10resp.subtotal then 40 else 0 := by
  have honce : suggest_quote_once (mkRequest .closet) []
      [mkCatalogItem "SHELF-8FT".data "closet-shelving".data 100]
      (.success (some c10qd) 9) = .ok c10resp := by
    simp [suggest_quote_once, buildLineItems, buildQuoteLineItem, c10qd, mkRawItem,
      mkRequest, c10resp, margin_percent_of, estimated_cost]
    norm_num [pyRound2, roundHalfEvenInt, ratFloor, Int.fdiv]
  have hrun : (suggest_quote (mkRequest .closet) []
      [mkCatalogItem "SHELF-8FT".data "closet-shelving".data 100] c10model).2
      = .ok c10resp := by
    rw [suggest_quote_eq]
    simp only [c10model, honce]
  exact c10_margin_constant _ _ _ _ _ hrun

/-- A line item whose total is 1000.00, for the C8 witness. -/
def c8Item : QuoteLineItem :=
  { sku := "SHELF-8FT".data, description := "shelf".data, quantity := 4,
    unit_price := 250, total := 1000, category := "base".data, reasoning := none }

/-- Witness for C8: a single line item totalling 1000 gives cost 600 and
margin 40; the empty item list (subtotal 0) gives margin 0. -/
theorem c8_margin_formula_and_guard_witness :
    estimated_cost [c8Item] = 600 ∧ margin_percent_of [c8Item] = 40
    ∧ margin_percent_of [] = 0 := by
  have h1000 : ([c8Item].map QuoteLineItem.total).sum = 1000 := by
    simp [c8Item]
  have h := c8_margin_formula_and_guard.1 [c8Item] h1000
  exact ⟨h.1, h.2, c8_margin_formula_and_guard.2 [] (by simp)⟩

/-- Model output for the C3 runs: one line item totalling 11. -/
def c3qd : RawQuoteData :=
  { line_items := some [mkRawItem "SHELF-8FT".data 1 11 11], reasoning := none,
    upsell_suggestions := none, confidence_score := none }

/-- C3 counterexample: a returned response with subtotal 11 carries tax
0.9075, while `round(subtotal * 0.0825, 2)` is 0.91; the difference 0.0025
exceeds the 1e-6 tolerance — the tax field is not rounded to 2 decimals. -/
theorem c3_tax_unrounded_counterexample :
    ((suggest_quote_once (mkRequest .closet) []
        [mkCatalogItem "SHELF-8FT".data "closet-shelving".data 11]
        (.success (some c3qd) 0)).toOption.map fun r => (r.subtotal, r.tax))
      = some (11, 9075/10000)
    ∧ pyRound2 (11 * (825/10000)) = 91/100
    ∧ ¬ |(9075:ℚ)/10000 - pyRound2 (11 * (825/10000))| ≤ 1/1000000 := by
  have hround : pyRound2 (11 * (825/10000)) = 91/100 := by
    norm_num [pyRound2, roundHalfEvenInt, ratFloor, Int.fdiv]
  refine ⟨?_, hround, ?_⟩
  · simp [suggest_quote_once, buildLineItems, buildQuoteLineItem, c3qd, mkRawItem,
      mkRequest, Except.toOption]
    norm_num
  · rw [hround, show (9075:ℚ)/10000 - 91/100 = -(1/400) by norm_num, abs_neg,
      abs_of_pos (by norm_num : (0:ℚ) < 1/400)]
    norm_num

/-- C3 (amended): the tax of every returned response is exactly
`subtotal * 0.0825`; no rounding to two decimals is applied to it. -/
theorem c3_tax_exact_rate :
    ∀ (request : QuoteRequest) (similar_quotes : List HistoricalQuote)
      (catalog : List CatalogItem) (model : ℕ → ModelOutcome) (r : QuoteResponse),
      (suggest_quote request similar_quotes catalog model).2 = .ok r →
      r.tax = r.subtotal * (825/10000) := by
  intro request sq cat model r h
  obtain ⟨attempt, honce⟩ := suggest_quote_ok_attempt h
  obtain ⟨qd, created, raw, li, up, -, -, -, -, hr⟩ := suggest_quote_once_ok honce
  subst hr
  rfl

/-- The model behaviour for the C3 witness: every attempt succeeds. -/
def c3model : ℕ → ModelOutcome := fun _ => .success (some c3qd) 0

/-- The response the C3 witness run produces. -/
def c3resp : QuoteResponse :=
  { quote_id := "quote_".data ++ "acme".data ++ "_".data ++ intStr 0,
    tenant_id := "acme".data,
    line_items := [{ sku := "SHELF-8FT".data, description := "item".data,
                     quantity := 1, unit_price := 11, total := 11,
                     category := "base".data, reasoning := none }],
    subtotal := 11, tax := 11 * (825/10000), total := 11 + 11 * (825/10000),
    estimated_margin_percent := 40, reasoning := [], upsell_suggestions := [],
    similar_quotes_used := 0, confidence_score := 7/10 }

/-- Witness for the amended C3 at the concrete subtotal-11 run. -/
theorem c3_tax_exact_rate_witness : c3resp.tax = c3resp.subtotal * (825/10000) := by
  have honce : suggest_quote_once (mkRequest .closet) []
      [mkCatalogItem "SHELF-8FT".data "closet-shelving".data 11]
      (.success (some c3qd) 0) = .ok c3resp := by
    simp [suggest_quote_once, buildLineItems, buildQuoteLineItem, c3qd, mkRawItem,
      mkRequest, c3resp, margin_percent_of, estimated_cost]
    norm_num [pyRound2, roundHalfEvenInt, ratFloor, Int.fdiv]
  have hrun : (suggest_quote (mkRequest .closet) []
      [mkCatalogItem "SHELF-8FT".data "closet-shelving".data 11] c3model).2
      = .ok c3resp := by
    rw [suggest_quote_eq]
    simp only [c3model, honce]
  exact c3_tax_exact_rate _ _ _ _ _ hrun

/-- Model output for the C4 runs: the model self-reports confidence 1.5,
outside [0, 1]. -/
def c4qd : RawQuoteData :=
  { line_items := some [mkRawItem "SHELF-8FT".data 1 10 10], reasoning := none,
    upsell_suggestions := none, confidence_score := some (3/2) }

/-- C4 counterexample: when the parsed model output carries
`confidence_score = 1.5`, the returned response carries 1.5 as well —
outside `[0, 1]`; no clamping or validation is applied. -/
theorem c4_confidence_unclamped_counterexample :
    ((suggest_quote_once (mkRequest .closet) []
        [mkCatalogItem "SHELF-8FT".data "closet-shelving".data 10]
        (.success (some c4qd) 0)).toOption.map QuoteResponse.confidence_score)
      = some (3/2)
    ∧ ¬ ((3:ℚ)/2 ≤ 1) := by
  constructor
  · simp [suggest_quote_once, buildLineItems, buildQuoteLineItem, c4qd, mkRawItem,
      mkRequest, Except.toOption]
  · norm_num

/-- C4 (amended): the returned confidence score is the parsed model value
carried verbatim, defaulting to 0.7 when absent; it lies in [0, 1] exactly
when the model's self-reported value does. -/
theorem c4_confidence_carried_verbatim :
    ∀ (request : QuoteRequest) (similar_quotes : List HistoricalQuote)
      (catalog : List CatalogItem) (quote_data : RawQuoteData) (created : ℤ)
      (r : QuoteResponse),
      suggest_quote_once request similar_quotes catalog
        (.success (some quote_data) created) = .ok r →
      r.confidence_score = quote_data.confidence_score.getD (7/10) := by
  intro request sq cat quote_data created r h
  obtain ⟨qd', created', raw, li, up, heq, -, -, -, hr⟩ := suggest_quote_once_ok h
  have hqd : quote_data = qd' := by
    simpa using congrArg (fun o => match o with
      | ModelOutcome.success (some q) _ => q
      | _ => quote_data) heq
  subst hqd
  subst hr
  rfl

/-- The response the C4 witness run produces. -/
def c4resp : QuoteResponse :=
  { quote_id := "quote_".data ++ "acme".data ++ "_".data ++ intStr 0,
    tenant_id := "acme".data,
    line_items := [{ sku := "SHELF-8FT".data, description := "item".data,
                     quantity := 1, unit_price := 10, total := 10,
                     category := "base".data, reasoning := none }],
    subtotal := 10, tax := 10 * (825/10000), total := 10 + 10 * (825/10000),
    estimated_margin_percent := 40, reasoning := [], upsell_suggestions := [],
    similar_quotes_used := 0, confidence_score := 3/2 }

/-- Witness for the amended C4 at the concrete confidence-1.5 run. -/
theorem c4_confidence_carried_verbatim_witness :
    c4resp.confidence_score = c4qd.confidence_score.getD (7/10) := by
  have honce : suggest_quote_once (mkRequest .closet) []
      [mkCatalogItem "SHELF-8FT".data "closet-shelving".data 10]
      (.success (some c4qd) 0) = .ok c4resp := by
    simp [suggest_quote_once, buildLineItems, buildQuoteLineItem, c4qd, mkRawItem,
      mkRequest, c4resp, margin_percent_of, estimated_cost]
    norm_num [pyRound2, roundHalfEvenInt, ratFloor, Int.fdiv]
  exact c4_confidence_carried_verbatim _ _ _ _ _ _ honce

/-- Model output for the C1 counterexample: a well-shaped line item citing
a SKU that is not in the catalog. -/
def c1qd : RawQuoteData :=
  { line_items := some [mkRawItem "GHOST-SKU".data 2 150 300],
    reasoning := none, upsell_suggestions := none, confidence_score := none }

/-- The catalog for the C1 runs: its only SKU is "SHELF-8FT". -/
def c1catalog : List CatalogItem :=
  [mkCatalogItem "SHELF-8FT".data "closet-shelving".data 150]

/-- C1 counterexample: the model cites the unknown SKU "GHOST-SKU" against
a catalog whose only SKU is "SHELF-8FT", yet the call succeeds and the
returned response keeps the unknown-SKU item — no failure of any kind. -/
theorem c1_unknown_sku_accepted :
    ((suggest_quote_once (mkRequest .closet) [] c1catalog
        (.success (some c1qd) 0)).toOption.map
      fun r => r.line_items.map QuoteLineItem.sku) = some ["GHOST-SKU".data]
    ∧ c1catalog.map CatalogItem.sku = ["SHELF-8FT".data]
    ∧ ¬ ("GHOST-SKU".data ∈ c1catalog.map CatalogItem.sku) := by
  refine ⟨?_, by simp [c1catalog, mkCatalogItem], by decide⟩
  simp [suggest_quote_once, buildLineItems, buildQuoteLineItem, c1qd, mkRawItem,
    mkRequest, Except.toOption]

/-- C1 (amended): each returned line item is validated for shape only —
a raw item missing a required field fails the whole call with the pydantic
`ValidationError` — but its SKU is never compared against the catalog: the
outcome of `suggest_quote_once` does not depend on the catalog contents at
all, so a response citing an unknown SKU is returned successfully. -/
theorem c1_shape_checked_sku_not_checked :
    (∀ (request : QuoteRequest) (similar_quotes : List HistoricalQuote)
      (catalog catalog' : List CatalogItem) (outcome : ModelOutcome),
      suggest_quote_once request similar_quotes catalog outcome
        = suggest_quote_once request similar_quotes catalog' outcome)
    ∧ (∀ (request : QuoteRequest) (similar_quotes : List HistoricalQuote)
        (catalog : List CatalogItem) (quote_data : RawQuoteData) (created : ℤ)
        (raw : List RawLineItem) (item : RawLineItem),
        quote_data.line_items = some raw → item ∈ raw → item.total = none →
        suggest_quote_once request similar_quotes catalog
          (.success (some quote_data) created) = .error .validationError) := by
  constructor
  · intro request sq cat cat' outcome
    rfl
  · intro request sq cat quote_data created raw item hli hmem htot
    have hbl : buildLineItems raw = .error .validationError :=
      buildLineItems_error ⟨item, hmem, htot⟩
    simp [suggest_quote_once, hli, hbl]

/-- A raw line item whose required `total` field is absent. -/
def c1badItem : RawLineItem :=
  { sku := some "SHELF-8FT".data, description := some "item".data,
    quantity := some 1, unit_price := some 150, total := none,
    category := some "base".data, reasoning := none }

/-- Model output whose single line item misses its `total` field. -/
def c1badQd : RawQuoteData :=
  { line_items := some [c1badItem], reasoning := none,
    upsell_suggestions := none, confidence_score := none }

/-- Witness for the amended C1: the outcome is unchanged when the catalog
is replaced by the empty one, and a missing `total` field fails the whole
call with `ValidationError`. -/
theorem c1_shape_checked_sku_not_checked_witness :
    suggest_quote_once (mkRequest .closet) [] c1catalog (.success (some c1qd) 0)
      = suggest_quote_once (mkRequest .closet) [] [] (.success (some c1qd) 0)
    ∧ suggest_quote_once (mkRequest .closet) [] c1catalog
        (.success (some c1badQd) 0) = .error .validationError :=
  ⟨c1_shape_checked_sku_not_checked.1 (mkRequest .closet) [] c1catalog []
      (.success (some c1qd) 0),
   c1_shape_checked_sku_not_checked.2 (mkRequest .closet) [] c1catalog c1badQd 0
      [c1badItem] c1badItem rfl (by simp) rfl⟩

/-- An inbound request body whose numeric fields are present but not
positive: square footage -5, ceiling height 0. -/
def c5raw : RawQuoteRequest :=
  { tenant_id := some "acme".data, customer_id := none,
    project_type := some "closet".data, customer_notes := some "notes".data,
    square_footage := some (-5), ceiling_height := some 0,
    budget_range := none, site_photos := none, customer_context := none }

/-- C5 counterexample: pydantic accepts the request with square footage -5
and ceiling height 0 — no `ValidationError` — and the validated request
carries the non-positive values. -/
theorem c5_nonpositive_numeric_accepted :
    ((validate_quote_request c5raw).toOption.map
      fun req => (req.square_footage, req.ceiling_height))
      = some (some (-5), some 0) := by
  simp [validate_quote_request, parseProjectType, c5raw, Except.toOption]

/-- C5 (amended): `QuoteRequest` validation checks only presence and shape
of `tenant_id`, `project_type` and `customer_notes`; present numeric
fields pass through with no range check, so any values — including ones
that are not strictly positive — are accepted. -/
theorem c5_numeric_fields_unconstrained :
    ∀ (raw : RawQuoteRequest) (req : QuoteRequest) (sf ch : Option ℚ),
      validate_quote_request raw = .ok req →
      req.square_footage = raw.square_footage
      ∧ req.ceiling_height = raw.ceiling_height
      ∧ (validate_quote_request
          { raw with square_footage := sf, ceiling_height := ch }).isOk = true := by
  intro raw req sf ch h
  obtain ⟨t, ci, p, n, sf0, ch0, b, sp, cc⟩ := raw
  unfold validate_quote_request at h ⊢
  cases t with
  | none => exact absurd h (by simp)
  | some tenant =>
    cases p with
    | none => exact absurd h (by simp)
    | some pt =>
      cases n with
      | none => exact absurd h (by simp)
      | some notes =>
        dsimp only at h ⊢
        cases hpt : parseProjectType pt with
        | none => rw [hpt] at h; exact absurd h (by simp)
        | some ptv =>
          rw [hpt] at h
          simp only [Except.ok.injEq] at h
          subst h
          refine ⟨rfl, rfl, ?_⟩
          simp [hpt, Except.isOk, Except.toBool]

/-- The validated request the C5 witness produces. -/
def c5req : QuoteRequest :=
  { tenant_id := "acme".data, customer_id := none, project_type := .closet,
    customer_notes := "notes".data, square_footage := some (-5),
    ceiling_height := some 0, budget_range := none, site_photos := none,
    customer_context := none }

/-- Witness for the amended C5 at the concrete non-positive request body. -/
theorem c5_numeric_fields_unconstrained_witness :
    c5req.square_footage = c5raw.square_footage
    ∧ c5req.ceiling_height = c5raw.ceiling_height
    ∧ (validate_quote_request
        { c5raw with square_footage := some (-7), ceiling_height := some 0 }).isOk
      = true := by
  have h : validate_quote_request c5raw = .ok c5req := by
    simp [validate_quote_request, parseProjectType, c5raw, c5req]
  exact c5_numeric_fields_unconstrained c5raw c5req (some (-7)) (some 0) h

/-- C6: `suggest_quote` is attempted at most 3 times — its outcome depends
only on the model's behaviour on attempts 1 to 3; the retry wraps the
whole body uniformly, whatever error kind each attempt raised; when the
first two attempts fail and the third succeeds, the successful response is
returned after backoff waits of exactly 2 then 4 seconds; and every
backoff wait is at least 2 seconds, at most 10, and non-decreasing in the
attempt number. -/
theorem c6_retry_three_attempts_backoff :
    (∀ (request : QuoteRequest) (similar_quotes : List HistoricalQuote)
      (catalog : List CatalogItem) (m m' : ℕ → ModelOutcome),
      (∀ i, 1 ≤ i → i ≤ 3 → m i = m' i) →
      suggest_quote request similar_quotes catalog m
        = suggest_quote request similar_quotes catalog m')
    ∧ (∀ (request : QuoteRequest) (similar_quotes : List HistoricalQuote)
        (catalog : List CatalogItem) (m : ℕ → ModelOutcome)
        (e1 e2 : QuoteError) (r : QuoteResponse),
        suggest_quote_once request similar_quotes catalog (m 1) = .error e1 →
        suggest_quote_once request similar_quotes catalog (m 2) = .error e2 →
        suggest_quote_once request similar_quotes catalog (m 3) = .ok r →
        suggest_quote request similar_quotes catalog m = ([2, 4], .ok r))
    ∧ wait_exponential 1 2 10 1 = 2
    ∧ (∀ k : ℕ, 2 ≤ wait_exponential 1 2 10 k ∧ wait_exponential 1 2 10 k ≤ 10
        ∧ wait_exponential 1 2 10 k ≤ wait_exponential 1 2 10 (k + 1)) := by
  refine ⟨?_, ?_, by norm_num [wait_exponential], ?_⟩
  · intro request sq cat m m' hagree
    have h1 := hagree 1 (by norm_num) (by norm_num)
    have h2 := hagree 2 (by norm_num) (by norm_num)
    have h3 := hagree 3 (by norm_num) (by norm_num)
    rw [suggest_quote_eq, suggest_quote_eq, h1, h2, h3]
  · intro request sq cat m e1 e2 r h1 h2 h3
    rw [suggest_quote_eq]
    simp only [h1, h2, h3]
    norm_num [wait_exponential]
  · intro k
    unfold wait_exponential
    refine ⟨?_, ?_, ?_⟩
    · rw [show (0:ℚ) ⊔ 2 = 2 by norm_num]
      exact le_max_left _ _
    · exact max_le (by norm_num) (min_le_right _ _)
    · apply max_le_max (le_refl _)
      apply min_le_min _ (le_refl _)
      have h2k : (2:ℚ) ^ k ≤ 2 ^ (k + 1) :=
        pow_le_pow_right₀ (by norm_num) (Nat.le_succ k)
      simpa using h2k

/-- Model output for the successful third attempt of the C6 witness. -/
def c6qd : RawQuoteData :=
  { line_items := some [mkRawItem "SHELF-8FT".data 1 20 20], reasoning := none,
    upsell_suggestions := none, confidence_score := none }

/-- The model behaviour for the C6 witness: transport failure, then
invalid JSON, then success. -/
def c6model : ℕ → ModelOutcome := fun n =>
  if n = 1 then .transportError
  else if n = 2 then .success none 0
  else .success (some c6qd) 3

/-- A variant of `c6model` that only differs after the third attempt. -/
def c6modelAlt : ℕ → ModelOutcome := fun n =>
  if n ≤ 3 then c6model n else .transportError

/-- The response the C6 witness run produces on its third attempt. -/
def c6resp : QuoteResponse :=
  { quote_id := "quote_".data ++ "acme".data ++ "_".data ++ intStr 3,
    tenant_id := "acme".data,
    line_items := [{ sku := "SHELF-8FT".data, description := "item".data,
                     quantity := 1, unit_price := 20, total := 20,
                     category := "base".data, reasoning := none }],
    subtotal := 20, tax := 20 * (825/10000), total := 20 + 20 * (825/10000),
    estimated_margin_percent := 40, reasoning := [], upsell_suggestions := [],
    similar_quotes_used := 0, confidence_score := 7/10 }

/-- Witness for C6: the fail-fail-succeed model returns the third-attempt
response with waits [2, 4], the outcome ignores model behaviour past
attempt 3, and the first backoff wait is 2 seconds. -/
theorem c6_retry_three_attempts_backoff_witness :
    suggest_quote (mkRequest .closet) [] c1catalog c6model = ([2, 4], .ok c6resp)
    ∧ suggest_quote (mkRequest .closet) [] c1catalog c6model
      = suggest_quote (mkRequest .closet) [] c1catalog c6modelAlt
    ∧ wait_exponential 1 2 10 1 = 2 := by
  have h3 : suggest_quote_once (mkRequest .closet) [] c1catalog (c6model 3)
      = .ok c6resp := by
    simp [suggest_quote_once, buildLineItems, buildQuoteLineItem, c6qd, c6model,
      mkRawItem, mkRequest, c6resp, margin_percent_of, estimated_cost]
    norm_num [pyRound2, roundHalfEvenInt, ratFloor, Int.fdiv]
  refine ⟨?_, ?_, c6_retry_three_attempts_backoff.2.2.1⟩
  · exact c6_retry_three_attempts_backoff.2.1 (mkRequest .closet) [] c1catalog
      c6model .modelTransportError .invalidJSON c6resp rfl rfl h3
  · exact c6_retry_three_attempts_backoff.1 (mkRequest .closet) [] c1catalog
      c6model c6modelAlt (by intro i h1 h3i; interval_cases i <;> rfl)

end AIQuote
